import Mathlib

/-!
Verification of the mapping-and-ranking core of the
Intelligent-Handwritten-Math-Recognition repository.

Shallow embedding of `src/semantic_engine/mapping_db/symbol_mapping.py`,
`src/semantic_engine/ranking/ranker.py` and the mapping-database part of
`src/semantic_engine/integration.py`.

Modelling conventions:
* Python floats are modelled as exact rationals (`ℚ`); all priorities,
  confidences and weights in the program are small decimal literals, written
  here as the corresponding rationals (0.6 ↦ 3/5, and so on).
* A Python `dict` is modelled as an insertion-ordered association list
  (`List (key × value)`); `dict` reads are first-match lookups and adding a
  new key appends at the end, matching the CPython insertion-order semantics.
* JSON I/O is modelled at the level of the parsed tree: `json.dumps`/
  `json.loads` round-trip the tree, and the text key `str(symbol_id)` /
  `int(class_id_str)` conversion is the identity on the integer key.
  A file that cannot be read or whose content cannot be parsed is modelled
  as the absent (`none`) serialized tree.
* `np.exp` (used only inside the softmax branch of `rank_candidates`) is an
  explicit function parameter `expf`; no claim constrains its values.
* Raising an exception is modelled as `Except.error` / `Option.none`.
-/

-- Batteries seals the rational-number operations; re-opening them lets
-- concrete program runs be evaluated by `decide`/`rfl` in witnesses.
attribute [local semireducible] Rat.add Rat.mul Rat.sub Rat.inv

namespace MathRec

/-- The `LaTeXCandidate` dataclass of symbol_mapping.py lines 19-25: one LaTeX
command candidate for a symbol, with its static mathematical priority. -/
structure LaTeXCandidate where
  command : String
  math_priority : ℚ
  context : String
  description : Option String := none
  deriving DecidableEq, Repr

/-- The `SymbolMapping` dataclass of symbol_mapping.py lines 28-33: mapping from a
visual symbol class to its LaTeX candidates, in insertion order. -/
structure SymbolMapping where
  symbol_class_id : Int
  symbol_name : String
  latex_candidates : List LaTeXCandidate := []
  deriving DecidableEq, Repr

/-- The descending-priority comparison used by
`sorted(..., key=lambda x: x.math_priority, reverse=True)`. -/
def prioDesc (a b : LaTeXCandidate) : Prop :=
  b.math_priority ≤ a.math_priority

instance : DecidableRel prioDesc :=
  fun a b => inferInstanceAs (Decidable (b.math_priority ≤ a.math_priority))

instance : IsTotal LaTeXCandidate prioDesc :=
  ⟨fun a b => le_total b.math_priority a.math_priority⟩

instance : IsTrans LaTeXCandidate prioDesc :=
  ⟨fun _ _ _ h1 h2 => le_trans h2 h1⟩

/-- The `SymbolMapping.get_ranked_candidates`, symbol_mapping.py lines 35-37:
candidates sorted by `math_priority` descending.  The Python `sorted` builtin is a
stable sort and `reverse=True` keeps the original order of equal keys, which
is exactly `List.insertionSort` with the reflexive descending relation. -/
def SymbolMapping.get_ranked_candidates (m : SymbolMapping) : List LaTeXCandidate :=
  List.insertionSort prioDesc m.latex_candidates

/-- The `SymbolMappingDatabase`, symbol_mapping.py lines 40-54: the store is a
dict from symbol class id to `SymbolMapping`, modelled as an
insertion-ordered association list. -/
structure SymbolMappingDatabase where
  mappings : List (Int × SymbolMapping)
  deriving DecidableEq, Repr

/-- The curated seed data built by `SymbolMappingDatabase._initialize_mappings`,
symbol_mapping.py lines 57-491 (all twenty entries, in insertion order). -/
def SymbolMappingDatabase.init : SymbolMappingDatabase :=
  ⟨[ (1, { symbol_class_id := 1, symbol_name := "double right arrow",
           latex_candidates := [
             { command := "\\implies", math_priority := 1, context := "logical implication",
               description := some "Standard symbol for logical implication in mathematical logic" },
             { command := "\\Rightarrow", math_priority := 3/5, context := "general implication",
               description := some "General double-line right arrow, less specific than \\implies" },
             { command := "\\rightarrow", math_priority := 3/10, context := "generic arrow or mapping",
               description := some "Generic right arrow, can mean function mapping or general direction" }] }),
     (2, { symbol_class_id := 2, symbol_name := "double left-right arrow",
           latex_candidates := [
             { command := "\\iff", math_priority := 1, context := "if and only if",
               description := some "Standard symbol for logical equivalence (if and only if)" },
             { command := "\\Leftrightarrow", math_priority := 3/5, context := "general equivalence",
               description := some "General double-line bidirectional arrow" },
             { command := "\\leftrightarrow", math_priority := 3/10, context := "generic bidirectional arrow",
               description := some "Generic bidirectional arrow" }] }),
     (3, { symbol_class_id := 3, symbol_name := "right arrow",
           latex_candidates := [
             { command := "\\rightarrow", math_priority := 4/5, context := "function mapping or limit",
               description := some "Commonly used for function mappings f: A → B or limits" },
             { command := "\\to", math_priority := 7/10, context := "function mapping (shorthand)",
               description := some "Shorthand for \\rightarrow, commonly used in function notation" },
             { command := "\\mapsto", math_priority := 9/10, context := "element mapping",
               description := some "Maps to (element-wise), e.g., x ↦ f(x)" }] }),
     (4, { symbol_class_id := 4, symbol_name := "subset or equal",
           latex_candidates := [
             { command := "\\subseteq", math_priority := 1, context := "subset or equal",
               description := some "Standard symbol for subset or equal in set theory" },
             { command := "\\subset", math_priority := 7/10, context := "proper subset",
               description := some "Proper subset (not equal)" },
             { command := "\\subseteqq", math_priority := 9/10, context := "subset or equal (variant)",
               description := some "Variant of \\subseteq, less common" }] }),
     (5, { symbol_class_id := 5, symbol_name := "element of",
           latex_candidates := [
             { command := "\\in", math_priority := 1, context := "set membership",
               description := some "Standard symbol for set membership (element of)" },
             { command := "\\epsilon", math_priority := 1/5, context := "Greek letter epsilon",
               description := some "Greek letter epsilon, visually similar but different meaning" }] }),
     (6, { symbol_class_id := 6, symbol_name := "union",
           latex_candidates := [
             { command := "\\cup", math_priority := 1, context := "set union",
               description := some "Standard symbol for set union" },
             { command := "\\bigcup", math_priority := 9/10, context := "big union",
               description := some "Large union operator for indexed unions" }] }),
     (7, { symbol_class_id := 7, symbol_name := "intersection",
           latex_candidates := [
             { command := "\\cap", math_priority := 1, context := "set intersection",
               description := some "Standard symbol for set intersection" },
             { command := "\\bigcap", math_priority := 9/10, context := "big intersection",
               description := some "Large intersection operator for indexed intersections" }] }),
     (8, { symbol_class_id := 8, symbol_name := "less than or equal",
           latex_candidates := [
             { command := "\\leq", math_priority := 1, context := "less than or equal",
               description := some "Standard mathematical symbol for less than or equal" },
             { command := "\\leqslant", math_priority := 4/5, context := "less than or equal (variant)",
               description := some "Variant of \\leq, less common" }] }),
     (9, { symbol_class_id := 9, symbol_name := "greater than or equal",
           latex_candidates := [
             { command := "\\geq", math_priority := 1, context := "greater than or equal",
               description := some "Standard mathematical symbol for greater than or equal" },
             { command := "\\geqslant", math_priority := 4/5, context := "greater than or equal (variant)",
               description := some "Variant of \\geq, less common" }] }),
     (10, { symbol_class_id := 10, symbol_name := "not equal",
            latex_candidates := [
              { command := "\\neq", math_priority := 1, context := "not equal",
                description := some "Standard mathematical symbol for not equal" },
              { command := "\\ne", math_priority := 9/10, context := "not equal (shorthand)",
                description := some "Shorthand for \\neq" }] }),
     (11, { symbol_class_id := 11, symbol_name := "approximately equal",
            latex_candidates := [
              { command := "\\approx", math_priority := 1, context := "approximately equal",
                description := some "Standard symbol for approximately equal" },
              { command := "\\simeq", math_priority := 4/5, context := "asymptotically equal",
                description := some "Asymptotically equal, used in asymptotic analysis" },
              { command := "\\cong", math_priority := 7/10, context := "congruent",
                description := some "Congruent, used in geometry" }] }),
     (12, { symbol_class_id := 12, symbol_name := "for all",
            latex_candidates := [
              { command := "\\forall", math_priority := 1, context := "universal quantifier",
                description := some "Universal quantifier (for all) in mathematical logic" }] }),
     (13, { symbol_class_id := 13, symbol_name := "exists",
            latex_candidates := [
              { command := "\\exists", math_priority := 1, context := "existential quantifier",
                description := some "Existential quantifier (there exists) in mathematical logic" }] }),
     (14, { symbol_class_id := 14, symbol_name := "multiplication",
            latex_candidates := [
              { command := "\\times", math_priority := 1, context := "multiplication or cross product",
                description := some "Standard symbol for multiplication or cross product" },
              { command := "\\cdot", math_priority := 9/10, context := "dot product or scalar multiplication",
                description := some "Dot product or scalar multiplication" },
              { command := "\\ast", math_priority := 1/2, context := "asterisk multiplication",
                description := some "Asterisk multiplication, less common" }] }),
     (15, { symbol_class_id := 15, symbol_name := "division",
            latex_candidates := [
              { command := "\\div", math_priority := 1, context := "division",
                description := some "Standard symbol for division" }] }),
     (16, { symbol_class_id := 16, symbol_name := "plus minus",
            latex_candidates := [
              { command := "\\pm", math_priority := 1, context := "plus or minus",
                description := some "Standard symbol for plus or minus" },
              { command := "\\mp", math_priority := 9/10, context := "minus or plus",
                description := some "Minus or plus (opposite of \\pm)" }] }),
     (17, { symbol_class_id := 17, symbol_name := "equivalent",
            latex_candidates := [
              { command := "\\equiv", math_priority := 1, context := "equivalent or congruent",
                description := some "Standard symbol for equivalence or congruence" },
              { command := "\\sim", math_priority := 7/10, context := "similar or asymptotically equivalent",
                description := some "Similar or asymptotically equivalent" }] }),
     (18, { symbol_class_id := 18, symbol_name := "integral",
            latex_candidates := [
              { command := "\\int", math_priority := 1, context := "integral",
                description := some "Standard symbol for integral" },
              { command := "\\oint", math_priority := 9/10, context := "contour integral",
                description := some "Contour integral (closed path integral)" },
              { command := "\\iint", math_priority := 4/5, context := "double integral",
                description := some "Double integral" }] }),
     (19, { symbol_class_id := 19, symbol_name := "sum",
            latex_candidates := [
              { command := "\\sum", math_priority := 1, context := "summation",
                description := some "Standard symbol for summation" },
              { command := "\\Sigma", math_priority := 3/10, context := "Greek letter capital sigma",
                description := some "Greek letter capital sigma, visually similar but different from \\sum" }] }),
     (20, { symbol_class_id := 20, symbol_name := "product",
            latex_candidates := [
              { command := "\\prod", math_priority := 1, context := "product",
                description := some "Standard symbol for product" },
              { command := "\\Pi", math_priority := 3/10, context := "Greek letter capital pi",
                description := some "Greek letter capital pi, visually similar but different from \\prod" }] })]⟩

/-- The `SymbolMappingDatabase.get_mapping`, symbol_mapping.py lines 493-495:
`self.mappings.get(symbol_class_id)` — first-match dict lookup, `none` for
unknown ids. -/
def SymbolMappingDatabase.get_mapping (db : SymbolMappingDatabase) (symbol_class_id : Int) :
    Option SymbolMapping :=
  db.mappings.lookup symbol_class_id

/-- The `SymbolMappingDatabase.get_ranked_candidates`, symbol_mapping.py lines
497-502: empty list for unknown ids, otherwise the ranked list of the mapping. -/
def SymbolMappingDatabase.get_ranked_candidates (db : SymbolMappingDatabase)
    (symbol_class_id : Int) : List LaTeXCandidate :=
  match db.get_mapping symbol_class_id with
  | none => []
  | some mapping => mapping.get_ranked_candidates

/-- One serialized candidate record, as written by `to_json`
(symbol_mapping.py lines 511-519): the four fields of a candidate, with an
absent description serialized as JSON `null` (here `none`). -/
structure CandidateJson where
  command : String
  math_priority : ℚ
  context : String
  description : Option String
  deriving DecidableEq, Repr

/-- One serialized mapping record, as written by `to_json`
(symbol_mapping.py lines 508-520). -/
structure MappingJson where
  symbol_class_id : Int
  symbol_name : String
  latex_candidates : List CandidateJson
  deriving DecidableEq, Repr

/-- The candidate-to-record projection inside `to_json`
(symbol_mapping.py lines 512-518). -/
def candidateToJson (cand : LaTeXCandidate) : CandidateJson :=
  { command := cand.command, math_priority := cand.math_priority,
    context := cand.context, description := cand.description }

/-- The record-to-candidate construction inside `from_json`
(symbol_mapping.py lines 536-544): `cand.get("description")` yields `none`
for a missing/null description. -/
def candidateOfJson (cand : CandidateJson) : LaTeXCandidate :=
  { command := cand.command, math_priority := cand.math_priority,
    context := cand.context, description := cand.description }

/-- The `SymbolMappingDatabase.to_json`, symbol_mapping.py lines 504-521: a
record keyed by each class id (`json.dumps` writes the int key as its
decimal string; the key is kept as the integer here since
`str`/`int` is a bijection on the keys), whose value carries the inner
`symbol_class_id` field, the name and the candidate list in order. -/
def SymbolMappingDatabase.to_json (db : SymbolMappingDatabase) :
    List (Int × MappingJson) :=
  db.mappings.map (fun e =>
    (e.1, { symbol_class_id := e.2.symbol_class_id,
            symbol_name := e.2.symbol_name,
            latex_candidates := e.2.latex_candidates.map candidateToJson }))

/-- The `SymbolMappingDatabase.from_json`, symbol_mapping.py lines 528-550: the
store is rebuilt from the parsed tree; the `symbol_class_id` of each mapping is
`int(class_id_str)`, i.e. the key — the `symbol_class_id` field stored
inside the value is ignored. -/
def SymbolMappingDatabase.from_json (data : List (Int × MappingJson)) :
    SymbolMappingDatabase :=
  ⟨data.map (fun e =>
    (e.1, { symbol_class_id := e.1,
            symbol_name := e.2.symbol_name,
            latex_candidates := e.2.latex_candidates.map candidateOfJson }))⟩

/-- One step of the merge loop in `load_full_mapping`, symbol_mapping.py
lines 566-569: an entry of the auxiliary store is added only if its id is
not already present; adding appends at the end (dict insertion order). -/
def mergeStep (acc : List (Int × SymbolMapping)) (e : Int × SymbolMapping) :
    List (Int × SymbolMapping) :=
  if (acc.lookup e.1).isSome then acc else acc ++ [e]

/-- The merge loop of `load_full_mapping`, symbol_mapping.py lines 565-569:
union by key-presence check, existing mappings take precedence. -/
def SymbolMappingDatabase.mergeMappings (db full : SymbolMappingDatabase) :
    SymbolMappingDatabase :=
  ⟨full.mappings.foldl mergeStep db.mappings⟩

/-- The `SymbolMappingDatabase.load_full_mapping`, symbol_mapping.py lines
559-569: `from_json_file` fully reads and parses the auxiliary source
before the merge loop touches the store, so a read or parse failure
(modelled by the absent tree) raises before any mutation — the error case
returns no store at all and the store of the caller is untouched. -/
def SymbolMappingDatabase.load_full_mapping (db : SymbolMappingDatabase)
    (source : Option (List (Int × MappingJson))) :
    Except String SymbolMappingDatabase :=
  match source with
  | none => Except.error "Could not load full mapping database"
  | some data => Except.ok (db.mergeMappings (SymbolMappingDatabase.from_json data))

/-- The mapping-database part of `SemanticSuggestionEngine.__init__`,
integration.py lines 46-57: start from the curated seed store, try the
merge, and on an exception print a warning and keep the store as it was.
The boolean records whether the warning branch ran. -/
def engineInitDb (source : Option (List (Int × MappingJson))) :
    SymbolMappingDatabase × Bool :=
  match SymbolMappingDatabase.init.load_full_mapping source with
  | Except.error _ => (SymbolMappingDatabase.init, true)
  | Except.ok db2 => (db2, false)

/-- The `RankedCandidate` dataclass of ranker.py lines 21-34: one scored
suggestion row. -/
structure RankedCandidate where
  latex_command : String
  symbol_class_id : Int
  vision_confidence : ℚ
  math_priority : ℚ
  combined_score : ℚ
  context : String
  description : Option String := none
  deriving DecidableEq, Repr

/-- The comparison realized by `RankedCandidate.__lt__` under the Python
stable `list.sort()`: descending by `combined_score`, ties keeping
generation order. -/
def scoreDesc (a b : RankedCandidate) : Prop :=
  b.combined_score ≤ a.combined_score

instance : DecidableRel scoreDesc :=
  fun a b => inferInstanceAs (Decidable (b.combined_score ≤ a.combined_score))

instance : IsTotal RankedCandidate scoreDesc :=
  ⟨fun a b => le_total b.combined_score a.combined_score⟩

instance : IsTrans RankedCandidate scoreDesc :=
  ⟨fun _ _ _ h1 h2 => le_trans h2 h1⟩

/-- The `CandidateRanker` state of ranker.py lines 37-81: the store and the two
weights fixed at construction. -/
structure CandidateRanker where
  mapping_db : SymbolMappingDatabase
  vision_weight : ℚ
  math_weight : ℚ
  deriving Repr

/-- The `CandidateRanker.__init__`, ranker.py lines 54-81: raises `ValueError`
unless `abs(vision_weight + math_weight - 1.0) <= 1e-6`; on success the
weights are stored unchanged. -/
def CandidateRanker.init (mapping_db : SymbolMappingDatabase)
    (vision_weight math_weight : ℚ) : Except String CandidateRanker :=
  if |vision_weight + math_weight - 1| > 1/1000000 then
    Except.error "Weights must sum to 1.0"
  else
    Except.ok ⟨mapping_db, vision_weight, math_weight⟩

/-- The body of the per-symbol loop of `rank_candidates`, ranker.py lines
119-156: for a selected `(symbol_id, confidence)` pair, either the single
synthesized placeholder row (when the store yields no candidates) or one
scored row per kept candidate.  This loop is duplicated in the source; see
`rankRowsTopK` for the second copy. -/
def rankRowsVec (r : CandidateRanker) (top_k_candidates_per_symbol : Nat)
    (p : Int × ℚ) : List RankedCandidate :=
  if (r.mapping_db.get_ranked_candidates p.1).isEmpty then
    [{ latex_command := "\\symbol_" ++ toString p.1,
       symbol_class_id := p.1,
       vision_confidence := p.2,
       math_priority := 1/2,
       combined_score := p.2 * r.vision_weight + (1/2) * r.math_weight,
       context := "symbol (no mapping available)",
       description := some ("Symbol class " ++ toString p.1 ++ " - mapping not yet available") }]
  else
    ((r.mapping_db.get_ranked_candidates p.1).take top_k_candidates_per_symbol).map
      (fun latex_cand =>
        { latex_command := latex_cand.command,
          symbol_class_id := p.1,
          vision_confidence := p.2,
          math_priority := latex_cand.math_priority,
          combined_score := p.2 * r.vision_weight + latex_cand.math_priority * r.math_weight,
          context := latex_cand.context,
          description := latex_cand.description })

/-- The body of the per-symbol loop of `rank_candidates_from_top_k`,
ranker.py lines 182-218 — a verbatim duplicate of the loop of
`rank_candidates` (the `int(...)`/`float(...)` casts of the vector path are
identities in the rational model). -/
def rankRowsTopK (r : CandidateRanker) (top_k_candidates_per_symbol : Nat)
    (p : Int × ℚ) : List RankedCandidate :=
  if (r.mapping_db.get_ranked_candidates p.1).isEmpty then
    [{ latex_command := "\\symbol_" ++ toString p.1,
       symbol_class_id := p.1,
       vision_confidence := p.2,
       math_priority := 1/2,
       combined_score := p.2 * r.vision_weight + (1/2) * r.math_weight,
       context := "symbol (no mapping available)",
       description := some ("Symbol class " ++ toString p.1 ++ " - mapping not yet available") }]
  else
    ((r.mapping_db.get_ranked_candidates p.1).take top_k_candidates_per_symbol).map
      (fun latex_cand =>
        { latex_command := latex_cand.command,
          symbol_class_id := p.1,
          vision_confidence := p.2,
          math_priority := latex_cand.math_priority,
          combined_score := p.2 * r.vision_weight + latex_cand.math_priority * r.math_weight,
          context := latex_cand.context,
          description := latex_cand.description })

/-- The `CandidateRanker.rank_candidates_from_top_k`, ranker.py lines 163-223:
collect the per-symbol rows in order (the repeated `append` of the source
builds exactly the flattened concatenation) and stable-sort them by
combined score descending. -/
def CandidateRanker.rank_candidates_from_top_k (r : CandidateRanker)
    (top_k_symbols : List (Int × ℚ)) (top_k_candidates_per_symbol : Nat) :
    List RankedCandidate :=
  List.insertionSort scoreDesc
    (top_k_symbols.flatMap (rankRowsTopK r top_k_candidates_per_symbol))

/-- The numerically-stable softmax of ranker.py lines 109-110:
`exp(v - max v) / sum`.  `np.exp` is the parameter `expf`; rational
division by zero is total (`x / 0 = 0`), which no claim depends on. -/
def softmax (expf : ℚ → ℚ) (v : List ℚ) : List ℚ :=
  match v with
  | [] => []
  | v0 :: vrest =>
    let m := vrest.foldl max v0
    let exp_preds := (v0 :: vrest).map (fun x => expf (x - m))
    exp_preds.map (fun x => x / exp_preds.sum)

/-- Steps 1-2 of `rank_candidates`, ranker.py lines 101-110: on the empty
vector `vision_predictions.min()` raises `ValueError` (a zero-size numpy
reduction), modelled as `none`; otherwise the vector is kept as-is when all
values lie in `[0, 1]` and replaced by its softmax when any value is
negative or exceeds 1. -/
def normalizePredictions (expf : ℚ → ℚ) (vision_predictions : List ℚ) :
    Option (List ℚ) :=
  match vision_predictions with
  | [] => none
  | v0 :: vrest =>
    if vrest.foldl min v0 < 0 ∨ vrest.foldl max v0 > 1 then
      some (softmax expf (v0 :: vrest))
    else
      some (v0 :: vrest)

/-- Step 3 of `rank_candidates`, ranker.py lines 112-114:
`np.argsort(preds)[-top_k:][::-1]` paired with the selected confidences.
the order of `np.argsort` on exactly equal values is unspecified (spec §9);
modelled as the stable ascending argsort (equal values by lower index
first).  In Python, `[-k:]` with `k = 0` is the whole array. -/
def selectTopK (preds : List ℚ) (top_k_symbols : Nat) : List (Int × ℚ) :=
  let idxs := List.insertionSort
    (fun i j => preds.getD i 0 ≤ preds.getD j 0) (List.range preds.length)
  let lastK := if top_k_symbols = 0 then idxs else idxs.drop (idxs.length - top_k_symbols)
  lastK.reverse.map (fun i => (Int.ofNat i, preds.getD i 0))

/-- Steps 1-3 of `rank_candidates` combined: normalization followed by
top-k selection (ranker.py lines 101-114). -/
def normalizeAndSelect (expf : ℚ → ℚ) (vision_predictions : List ℚ)
    (top_k_symbols : Nat) : Option (List (Int × ℚ)) :=
  match normalizePredictions expf vision_predictions with
  | none => none
  | some preds => some (selectTopK preds top_k_symbols)

/-- The `CandidateRanker.rank_candidates`, ranker.py lines 83-161: normalize,
select the top symbols, score them with the (duplicated) per-symbol loop
and stable-sort by combined score descending.  `none` models the
`ValueError` raised on an empty prediction vector. -/
def CandidateRanker.rank_candidates (r : CandidateRanker) (expf : ℚ → ℚ)
    (vision_predictions : List ℚ) (top_k_symbols top_k_candidates_per_symbol : Nat) :
    Option (List RankedCandidate) :=
  match normalizeAndSelect expf vision_predictions top_k_symbols with
  | none => none
  | some pairs =>
    some (List.insertionSort scoreDesc
      (pairs.flatMap (rankRowsVec r top_k_candidates_per_symbol)))

/-- The ranker built by `create_default_ranker` / the integration defaults
(ranker.py lines 226-228): seed store, weights 0.6 and 0.4. -/
def defaultRanker : CandidateRanker :=
  ⟨SymbolMappingDatabase.init, 3/5, 2/5⟩

/-- The placeholder row synthesized for a symbol without usable candidates
(ranker.py lines 126-136 and 188-198). -/
def placeholderRow (r : CandidateRanker) (symbol_id : Int) (confidence : ℚ) :
    RankedCandidate :=
  { latex_command := "\\symbol_" ++ toString symbol_id,
    symbol_class_id := symbol_id,
    vision_confidence := confidence,
    math_priority := 1/2,
    combined_score := confidence * r.vision_weight + (1/2) * r.math_weight,
    context := "symbol (no mapping available)",
    description := some ("Symbol class " ++ toString symbol_id ++ " - mapping not yet available") }

/-- An auxiliary store that collides with the seed store on id 12 and brings
the fresh id 999; used to exercise the merge. -/
def extDb : SymbolMappingDatabase :=
  ⟨[(12, { symbol_class_id := 12, symbol_name := "fake for all",
           latex_candidates := [{ command := "\\wrong", math_priority := 1/10, context := "wrong" }] }),
    (999, { symbol_class_id := 999, symbol_name := "new symbol",
            latex_candidates := [{ command := "\\star", math_priority := 1/2, context := "star" }] })]⟩

/-- The serialized form of an auxiliary source colliding with the seed store
on id 12; used to exercise `load_full_mapping`. -/
def extJson : List (Int × MappingJson) :=
  [(12, { symbol_class_id := 12, symbol_name := "fake for all",
          latex_candidates := [{ command := "\\wrong", math_priority := 1/10,
                                 context := "wrong", description := none }] })]

/-- A one-entry store whose candidate list has a priority tie; used to
exercise sort stability. -/
def tieMapping : SymbolMapping :=
  { symbol_class_id := 7, symbol_name := "tie demo",
    latex_candidates := [
      { command := "\\alpha", math_priority := 1/2, context := "a" },
      { command := "\\beta", math_priority := 1/2, context := "b" },
      { command := "\\gamma", math_priority := 9/10, context := "c" }] }

/-- The store holding only `tieMapping`. -/
def tieDb : SymbolMappingDatabase := ⟨[(7, tieMapping)]⟩

/-! ## Helper lemmas -/

/-- A first-match lookup hit survives appending entries on the right. -/
theorem lookup_append_left {α β : Type} [BEq α] {l1 : List (α × β)}
    {k : α} {v : β} (l2 : List (α × β)) (h : l1.lookup k = some v) :
    (l1 ++ l2).lookup k = some v := by
  induction l1 with
  | nil => simp [List.lookup] at h
  | cons e t ih =>
    obtain ⟨a, b⟩ := e
    rw [List.lookup_cons] at h
    show List.lookup k ((a, b) :: (t ++ l2)) = some v
    rw [List.lookup_cons]
    cases hk : k == a with
    | true =>
      rw [hk] at h
      exact h
    | false =>
      rw [hk] at h
      exact ih h

/-- The merge loop never changes the result of a lookup that already hits. -/
theorem foldl_mergeStep_lookup {k : Int} {v : SymbolMapping} :
    ∀ (L acc : List (Int × SymbolMapping)), acc.lookup k = some v →
      (L.foldl mergeStep acc).lookup k = some v
  | [], _, h => h
  | e :: L, acc, h => by
    rw [List.foldl_cons]
    apply foldl_mergeStep_lookup L
    unfold mergeStep
    split
    · exact h
    · exact lookup_append_left [e] h

/-- A single merge never changes the result of a lookup that already hits. -/
theorem mergeMappings_get {db full : SymbolMappingDatabase} {k : Int}
    {m : SymbolMapping} (h : db.get_mapping k = some m) :
    (db.mergeMappings full).get_mapping k = some m :=
  foldl_mergeStep_lookup full.mappings db.mappings h

/-- Lookup through an entry-wise transformation that keeps keys. -/
theorem lookup_map_entry {β γ : Type} (g : Int → β → γ) (k : Int) :
    ∀ l : List (Int × β),
      (l.map (fun e => (e.1, g e.1 e.2))).lookup k = (l.lookup k).map (g k)
  | [] => rfl
  | (a, b) :: t => by
    rw [List.map_cons, List.lookup_cons, List.lookup_cons]
    cases hk : k == a with
    | true =>
      have hka : k = a := eq_of_beq hk
      subst hka
      rfl
    | false => exact lookup_map_entry g k t

/-- Serializing then parsing a candidate is the identity. -/
theorem candidate_roundtrip (c : LaTeXCandidate) :
    candidateOfJson (candidateToJson c) = c := rfl

/-! ## C2, C4, C5, C6, C10 -/

/-- C2: for every pair of weights, ranker construction succeeds iff
`|visionWeight + mathWeight - 1| ≤ 1e-6`, and otherwise it raises the
invalid-configuration error, yielding no ranker. -/
theorem weight_validation (db : SymbolMappingDatabase) (vw mw : ℚ) :
    ((∃ r, CandidateRanker.init db vw mw = Except.ok r) ↔ |vw + mw - 1| ≤ 1/1000000)
    ∧ (1/1000000 < |vw + mw - 1| →
        CandidateRanker.init db vw mw = Except.error "Weights must sum to 1.0") := by
  refine ⟨⟨?_, ?_⟩, ?_⟩
  · rintro ⟨r, hr⟩
    unfold CandidateRanker.init at hr
    split at hr
    · cases hr
    · next h => exact not_lt.mp h
  · intro h
    refine ⟨⟨db, vw, mw⟩, ?_⟩
    unfold CandidateRanker.init
    rw [if_neg (not_lt.mpr h)]
  · intro h
    unfold CandidateRanker.init
    rw [if_pos h]

theorem weight_validation_witness :
    (∃ r, CandidateRanker.init SymbolMappingDatabase.init (3/5) (2/5) = Except.ok r)
    ∧ CandidateRanker.init SymbolMappingDatabase.init (1/2) (1/4)
        = Except.error "Weights must sum to 1.0" :=
  ⟨(weight_validation SymbolMappingDatabase.init (3/5) (2/5)).1.mpr (by decide),
   (weight_validation SymbolMappingDatabase.init (1/2) (1/4)).2 (by decide)⟩

/-- C4: any sequence of merges — once or several times, same or different
auxiliary collections — leaves every pre-existing mapping unchanged; the
same holds through the `load_full_mapping` entry point. -/
theorem merge_preserves_existing (db : SymbolMappingDatabase)
    (sources : List SymbolMappingDatabase) (id : Int) (m : SymbolMapping)
    (h : db.get_mapping id = some m) :
    ((sources.foldl SymbolMappingDatabase.mergeMappings db).get_mapping id = some m)
    ∧ ∀ data db2, db.load_full_mapping (some data) = Except.ok db2 →
        db2.get_mapping id = some m := by
  constructor
  · induction sources generalizing db with
    | nil => exact h
    | cons s rest ih =>
      rw [List.foldl_cons]
      exact ih _ (mergeMappings_get h)
  · intro data db2 hld
    unfold SymbolMappingDatabase.load_full_mapping at hld
    cases hld
    exact mergeMappings_get h

/-- The entry of the seed store for id 12, written out as a literal. -/
def forallMapping : SymbolMapping :=
  { symbol_class_id := 12, symbol_name := "for all",
    latex_candidates := [
      { command := "\\forall", math_priority := 1, context := "universal quantifier",
        description := some "Universal quantifier (for all) in mathematical logic" }] }

theorem merge_preserves_existing_witness :
    (([extDb, extDb].foldl SymbolMappingDatabase.mergeMappings SymbolMappingDatabase.init).get_mapping 12
      = some forallMapping)
    ∧ ((SymbolMappingDatabase.init.mergeMappings (SymbolMappingDatabase.from_json extJson)).get_mapping 12
      = some forallMapping) :=
  ⟨(merge_preserves_existing SymbolMappingDatabase.init [extDb, extDb] 12 forallMapping (by decide)).1,
   (merge_preserves_existing SymbolMappingDatabase.init [] 12 forallMapping (by decide)).2 extJson _ rfl⟩

/-- C5: when the auxiliary source cannot be read or parsed, the merge
operation produces no partially-merged store (the failure happens before
the store is touched), and the engine initializer surfaces it as the
warning branch with the store exactly as it was (the seed store). -/
theorem merge_failure_nonfatal :
    (∀ db : SymbolMappingDatabase,
        db.load_full_mapping none = Except.error "Could not load full mapping database")
    ∧ engineInitDb none = (SymbolMappingDatabase.init, true) :=
  ⟨fun _ => rfl, rfl⟩

/-- C6 counterexample: ranking the empty prediction vector does not return
an empty suggestion list — it raises (numpy `min` on a zero-size array),
modelled as `none`. -/
theorem empty_vector_counterexample :
    defaultRanker.rank_candidates (fun x => x) [] 5 3 = none
    ∧ defaultRanker.rank_candidates (fun x => x) [] 5 3 ≠ some [] :=
  ⟨rfl, by decide⟩

/-- C6 amended: an empty list of `(symbol_id, confidence)` pairs yields an
empty suggestion list without error, while an empty prediction vector makes
the vector-based entry point raise. -/
theorem empty_input_amended (r : CandidateRanker) (expf : ℚ → ℚ) (ks kc : Nat) :
    r.rank_candidates_from_top_k [] kc = [] ∧ r.rank_candidates expf [] ks kc = none :=
  ⟨rfl, rfl⟩

/-- C10: `from_json` takes the `symbol_class_id` of each mapping from the record
key, ignoring the `symbol_class_id` field stored inside the value: the key
wins whenever they disagree. -/
theorem from_json_key_wins (data : List (Int × MappingJson)) (k : Int)
    (m : SymbolMapping)
    (h : (SymbolMappingDatabase.from_json data).get_mapping k = some m) :
    m.symbol_class_id = k := by
  unfold SymbolMappingDatabase.get_mapping SymbolMappingDatabase.from_json at h
  rw [lookup_map_entry
    (fun k0 j =>
      ({ symbol_class_id := k0,
         symbol_name := j.symbol_name,
         latex_candidates := j.latex_candidates.map candidateOfJson } : SymbolMapping)) k data] at h
  cases hl : data.lookup k with
  | none => rw [hl] at h; cases h
  | some j =>
    rw [hl] at h
    cases h
    rfl

theorem from_json_key_wins_witness :
    ((SymbolMappingDatabase.from_json
        [(5, { symbol_class_id := 99, symbol_name := "x", latex_candidates := [] })]).get_mapping 5
      = some { symbol_class_id := 5, symbol_name := "x", latex_candidates := [] })
    ∧ ({ symbol_class_id := 5, symbol_name := "x", latex_candidates := [] } : SymbolMapping).symbol_class_id = 5 :=
  ⟨by decide,
   from_json_key_wins [(5, { symbol_class_id := 99, symbol_name := "x", latex_candidates := [] })] 5
     { symbol_class_id := 5, symbol_name := "x", latex_candidates := [] } (by decide)⟩

/-! ## C3: serialization round-trip -/

/-- C3: deserializing the serialization of any store yields a store with the
same keys (even in the same order) and, for each stored mapping, the same
name and the same ordered candidate list — every field, including absent
descriptions. -/
theorem serialize_roundtrip (db : SymbolMappingDatabase) :
    ((SymbolMappingDatabase.from_json db.to_json).mappings.map Prod.fst
        = db.mappings.map Prod.fst)
    ∧ ∀ k m, db.get_mapping k = some m →
        ∃ m2, (SymbolMappingDatabase.from_json db.to_json).get_mapping k = some m2
          ∧ m2.symbol_name = m.symbol_name ∧ m2.latex_candidates = m.latex_candidates := by
  have hmaps : (SymbolMappingDatabase.from_json db.to_json).mappings
      = db.mappings.map (fun e =>
          (e.1,
           { symbol_class_id := e.1,
             symbol_name := e.2.symbol_name,
             latex_candidates := e.2.latex_candidates })) := by
    unfold SymbolMappingDatabase.from_json SymbolMappingDatabase.to_json
    rw [List.map_map]
    apply List.map_congr_left
    intro e _
    simp only [Function.comp_apply]
    rw [List.map_map]
    have hid : candidateOfJson ∘ candidateToJson = id := funext fun _ => rfl
    rw [hid, List.map_id]
  constructor
  · rw [hmaps, List.map_map]
    apply List.map_congr_left
    intro e _
    rfl
  · intro k m hk
    unfold SymbolMappingDatabase.get_mapping at hk ⊢
    rw [hmaps]
    rw [lookup_map_entry
      (fun k0 m0 =>
        ({ symbol_class_id := k0,
           symbol_name := m0.symbol_name,
           latex_candidates := m0.latex_candidates } : SymbolMapping)) k db.mappings, hk]
    exact ⟨_, rfl, rfl, rfl⟩

theorem serialize_roundtrip_witness :
    ∃ m2, (SymbolMappingDatabase.from_json SymbolMappingDatabase.init.to_json).get_mapping 12
        = some m2
      ∧ m2.symbol_name = "for all"
      ∧ m2.latex_candidates = forallMapping.latex_candidates :=
  (serialize_roundtrip SymbolMappingDatabase.init).2 12 forallMapping (by decide)

/-! ## C7: ranked candidate lookup -/

/-- Stability of the priority sort: within each priority class the sorted
list keeps the candidates in their original order. -/
theorem filter_prio_insertionSort (p : ℚ) :
    ∀ l : List LaTeXCandidate,
      (List.insertionSort prioDesc l).filter (fun c => c.math_priority = p)
        = l.filter (fun c => c.math_priority = p)
  | [] => rfl
  | a :: l => by
    have ih := filter_prio_insertionSort p l
    have hTD := List.takeWhile_append_dropWhile
      (fun b => decide ¬ prioDesc a b) (List.insertionSort prioDesc l)
    show (List.orderedInsert prioDesc a (List.insertionSort prioDesc l)).filter
        (fun c => c.math_priority = p) = (a :: l).filter (fun c => c.math_priority = p)
    rw [List.orderedInsert_eq_take_drop, List.filter_append, List.filter_cons]
    by_cases hap : a.math_priority = p
    · have hT : (List.takeWhile (fun b => decide ¬ prioDesc a b)
          (List.insertionSort prioDesc l)).filter
            (fun c => decide (c.math_priority = p)) = [] := by
        rw [List.filter_eq_nil_iff]
        intro b hb
        have hpb := List.mem_takeWhile_imp hb
        simp only [decide_eq_true_eq] at hpb ⊢
        intro hbp
        exact hpb (show prioDesc a b from le_of_eq (hbp.trans hap.symm))
      rw [hT, if_pos (by simpa using hap), List.nil_append, List.filter_cons,
        if_pos (by simpa using hap)]
      congr 1
      have hsplit : (List.insertionSort prioDesc l).filter
            (fun c => decide (c.math_priority = p))
          = (List.takeWhile (fun b => decide ¬ prioDesc a b)
              (List.insertionSort prioDesc l)).filter (fun c => decide (c.math_priority = p))
            ++ (List.dropWhile (fun b => decide ¬ prioDesc a b)
              (List.insertionSort prioDesc l)).filter (fun c => decide (c.math_priority = p)) := by
        rw [← List.filter_append, hTD]
      rw [hT, List.nil_append] at hsplit
      rw [← hsplit]
      exact ih
    · rw [if_neg (by simpa using hap), List.filter_cons, if_neg (by simpa using hap)]
      rw [← List.filter_append, hTD]
      exact ih

/-- C7: for every id, the ranked candidate sequence is priority-descending;
for a stored id it is a permutation of the stored candidates that keeps the
original order within each priority class (stability); for an unknown id it
is empty.  The function is pure, so repeated calls agree definitionally. -/
theorem get_ranked_candidates_spec (db : SymbolMappingDatabase) (id : Int) :
    List.Sorted prioDesc (db.get_ranked_candidates id)
    ∧ (∀ m, db.get_mapping id = some m →
        (db.get_ranked_candidates id).Perm m.latex_candidates
        ∧ ∀ p : ℚ, (db.get_ranked_candidates id).filter (fun c => c.math_priority = p)
            = m.latex_candidates.filter (fun c => c.math_priority = p))
    ∧ (db.get_mapping id = none → db.get_ranked_candidates id = []) := by
  unfold SymbolMappingDatabase.get_ranked_candidates
  cases hm : db.get_mapping id with
  | none =>
    refine ⟨List.sorted_nil, ?_, fun _ => rfl⟩
    intro m hm2
    cases hm2
  | some m0 =>
    unfold SymbolMapping.get_ranked_candidates
    refine ⟨List.sorted_insertionSort prioDesc m0.latex_candidates, ?_, ?_⟩
    · intro m hm2
      cases hm2
      exact ⟨List.perm_insertionSort prioDesc m0.latex_candidates,
        fun p => filter_prio_insertionSort p m0.latex_candidates⟩
    · intro hc
      cases hc

theorem get_ranked_candidates_spec_witness :
    ((tieDb.get_ranked_candidates 7).map LaTeXCandidate.command
        = ["\\gamma", "\\alpha", "\\beta"])
    ∧ (tieDb.get_ranked_candidates 7).filter (fun c => c.math_priority = 1/2)
        = tieMapping.latex_candidates.filter (fun c => c.math_priority = 1/2) :=
  ⟨by decide, ((get_ranked_candidates_spec tieDb 7).2.1 tieMapping rfl).2 (1/2)⟩

/-! ## Ranking helper lemmas -/

/-- The two per-symbol scoring loops of the source are verbatim duplicates,
so their embeddings are definitionally equal. -/
theorem rankRowsVec_eq_rankRowsTopK : rankRowsVec = rankRowsTopK := rfl

/-- The function `rank_candidates` factors into normalization/selection followed by the
same pair-scoring pipeline as `rank_candidates_from_top_k`. -/
theorem rank_candidates_eq (r : CandidateRanker) (expf : ℚ → ℚ) (v : List ℚ)
    (ks kc : Nat) :
    r.rank_candidates expf v ks kc
      = (normalizeAndSelect expf v ks).map
          (fun pairs => r.rank_candidates_from_top_k pairs kc) := by
  unfold CandidateRanker.rank_candidates
  cases normalizeAndSelect expf v ks with
  | none => rfl
  | some pairs => rfl

/-- Every row produced by the per-symbol loop carries the id of that symbol and
confidence, and its combined score is the weighted sum of its own
confidence and priority. -/
theorem rankRowsTopK_mem {r : CandidateRanker} {kc : Nat} {p : Int × ℚ}
    {c : RankedCandidate} (hc : c ∈ rankRowsTopK r kc p) :
    c.symbol_class_id = p.1 ∧ c.vision_confidence = p.2
    ∧ c.combined_score = p.2 * r.vision_weight + c.math_priority * r.math_weight := by
  unfold rankRowsTopK at hc
  split at hc
  · rw [List.mem_singleton] at hc
    subst hc
    exact ⟨rfl, rfl, rfl⟩
  · rw [List.mem_map] at hc
    obtain ⟨cand, _, rfl⟩ := hc
    exact ⟨rfl, rfl, rfl⟩

/-- With at least one candidate kept per symbol, the per-symbol loop always
contributes at least one row. -/
theorem rankRowsTopK_ne_nil {r : CandidateRanker} {kc : Nat} {p : Int × ℚ}
    (hkc : 1 ≤ kc) : rankRowsTopK r kc p ≠ [] := by
  unfold rankRowsTopK
  split
  · simp
  · next h =>
    obtain ⟨x, xs, hl⟩ : ∃ x xs, r.mapping_db.get_ranked_candidates p.1 = x :: xs := by
      cases hgl : r.mapping_db.get_ranked_candidates p.1 with
      | nil => rw [hgl] at h; simp at h
      | cons x xs => exact ⟨x, xs, rfl⟩
    rw [hl]
    obtain ⟨k, rfl⟩ : ∃ k, kc = k + 1 := ⟨kc - 1, by omega⟩
    simp

/-- For a symbol with no entry in the store, the loop contributes exactly
the placeholder row. -/
theorem rankRowsTopK_unmapped {r : CandidateRanker} {kc : Nat} {p : Int × ℚ}
    (h : r.mapping_db.get_mapping p.1 = none) :
    rankRowsTopK r kc p = [placeholderRow r p.1 p.2] := by
  have hg : r.mapping_db.get_ranked_candidates p.1 = [] := by
    unfold SymbolMappingDatabase.get_ranked_candidates
    rw [h]
  unfold rankRowsTopK
  rw [hg]
  rfl

/-- Membership in the sorted output is membership in the rows of some symbol. -/
theorem mem_rank_from_top_k {r : CandidateRanker} {pairs : List (Int × ℚ)}
    {kc : Nat} {c : RankedCandidate} :
    c ∈ r.rank_candidates_from_top_k pairs kc
      ↔ ∃ p ∈ pairs, c ∈ rankRowsTopK r kc p := by
  unfold CandidateRanker.rank_candidates_from_top_k
  rw [List.mem_insertionSort, List.mem_flatMap]

/-- Rows of a pair with a different symbol id are removed by the id filter. -/
theorem rankRows_filter_ne {r : CandidateRanker} {kc : Nat} {id : Int}
    {p : Int × ℚ} (hne : p.1 ≠ id) :
    (rankRowsTopK r kc p).filter (fun c => c.symbol_class_id = id) = [] := by
  rw [List.filter_eq_nil_iff]
  intro c hc
  have hcls := (rankRowsTopK_mem hc).1
  simp only [decide_eq_true_eq]
  rw [hcls]
  exact hne

/-- When exactly one selected pair carries the unmapped id, the id filter of
the collected rows is exactly the placeholder of that pair. -/
theorem flatMap_filter_unique {r : CandidateRanker} {kc : Nat} {id : Int}
    {conf : ℚ} (hno : r.mapping_db.get_mapping id = none) :
    ∀ pairs : List (Int × ℚ), (id, conf) ∈ pairs →
      (pairs.map Prod.fst).count id = 1 →
      pairs.flatMap (fun p => (rankRowsTopK r kc p).filter
          (fun c => c.symbol_class_id = id))
        = [placeholderRow r id conf]
  | [], hmem, _ => absurd hmem (List.not_mem_nil _)
  | q :: rest, hmem, hcount => by
    rw [List.flatMap_cons]
    by_cases hq : q.1 = id
    · have hrest0 : (rest.map Prod.fst).count id = 0 := by
        rw [List.map_cons, List.count_cons] at hcount
        rw [if_pos (beq_iff_eq.mpr hq)] at hcount
        omega
      have hnotinrest : id ∉ rest.map Prod.fst := List.count_eq_zero.mp hrest0
      have hqe : q = (id, conf) := by
        cases hmem with
        | head => rfl
        | tail _ hm =>
          exact absurd (List.mem_map_of_mem Prod.fst hm) hnotinrest
      subst hqe
      rw [rankRowsTopK_unmapped hno]
      have hrest : rest.flatMap (fun p => (rankRowsTopK r kc p).filter
          (fun c => c.symbol_class_id = id)) = [] := by
        rw [List.flatMap_eq_nil_iff]
        intro p hp
        refine rankRows_filter_ne fun he => hnotinrest ?_
        rw [← he]
        exact List.mem_map_of_mem Prod.fst hp
      rw [hrest]
      simp [placeholderRow]
    · rw [rankRows_filter_ne hq, List.nil_append]
      apply flatMap_filter_unique hno rest
      · cases hmem with
        | head => exact absurd rfl hq
        | tail _ hm => exact hm
      · rw [List.map_cons, List.count_cons] at hcount
        rw [if_neg (by simpa using hq)] at hcount
        omega

/-! ## C1, C9, C8 -/

/-- C1: every suggestion row recorded by a ranker constructed with weights
`(vw, mw)` — through either entry point — has
`combined_score = vw * confidence + mw * priority`; with the default
weights 0.6/0.4, confidence 0.85 and top priority 1.0, the top suggestion
scores 0.91. -/
theorem combined_score_formula :
    (∀ (db : SymbolMappingDatabase) (vw mw : ℚ) (r : CandidateRanker),
        CandidateRanker.init db vw mw = Except.ok r →
        (∀ pairs kc c, c ∈ r.rank_candidates_from_top_k pairs kc →
            c.combined_score = vw * c.vision_confidence + mw * c.math_priority)
        ∧ (∀ expf v ks kc out, r.rank_candidates expf v ks kc = some out →
            ∀ c ∈ out, c.combined_score = vw * c.vision_confidence + mw * c.math_priority))
    ∧ ∀ r, CandidateRanker.init SymbolMappingDatabase.init (3/5) (2/5) = Except.ok r →
        (r.rank_candidates_from_top_k [(1, 17/20)] 3).head?.map RankedCandidate.combined_score
          = some (91/100) := by
  have hmain : ∀ (db : SymbolMappingDatabase) (vw mw : ℚ) (r : CandidateRanker),
      CandidateRanker.init db vw mw = Except.ok r →
      ∀ pairs kc c, c ∈ r.rank_candidates_from_top_k pairs kc →
        c.combined_score = vw * c.vision_confidence + mw * c.math_priority := by
    intro db vw mw r hr pairs kc c hc
    unfold CandidateRanker.init at hr
    split at hr
    · cases hr
    · injection hr with hr2
      subst hr2
      rw [mem_rank_from_top_k] at hc
      obtain ⟨p, _, hcp⟩ := hc
      obtain ⟨_, hconf, hscore⟩ := rankRowsTopK_mem hcp
      rw [hscore, hconf]
      dsimp only
      ring
  refine ⟨fun db vw mw r hr => ⟨hmain db vw mw r hr, ?_⟩, ?_⟩
  · intro expf v ks kc out hout c hc
    rw [rank_candidates_eq] at hout
    cases hns : normalizeAndSelect expf v ks with
    | none => rw [hns] at hout; cases hout
    | some pairs =>
      rw [hns] at hout
      cases hout
      exact hmain db vw mw r hr pairs kc c hc
  · intro r hr
    unfold CandidateRanker.init at hr
    rw [if_neg (by norm_num)] at hr
    injection hr with hr2
    subst hr2
    decide

theorem combined_score_formula_witness :
    ((defaultRanker.rank_candidates_from_top_k [(1, 17/20)] 3).head?.map
        RankedCandidate.combined_score = some (91/100))
    ∧ ∀ c ∈ defaultRanker.rank_candidates_from_top_k [(1, 17/20)] 3,
        c.combined_score = (3/5) * c.vision_confidence + (2/5) * c.math_priority :=
  ⟨combined_score_formula.2 defaultRanker (by rfl),
   fun c hc => (combined_score_formula.1 SymbolMappingDatabase.init (3/5) (2/5)
     defaultRanker (by rfl)).1 [(1, 17/20)] 3 c hc⟩

/-- C9: the pair-based entry point produces exactly the list the
vector-based entry point produces whenever normalization and top-k
selection yield that same pair sequence — the two (duplicated) scoring
loops coincide. -/
theorem entry_points_agree (r : CandidateRanker) (expf : ℚ → ℚ) (v : List ℚ)
    (ks kc : Nat) (pairs : List (Int × ℚ))
    (h : normalizeAndSelect expf v ks = some pairs) :
    r.rank_candidates expf v ks kc = some (r.rank_candidates_from_top_k pairs kc) := by
  rw [rank_candidates_eq, h]
  rfl

theorem entry_points_agree_witness :
    defaultRanker.rank_candidates (fun x => x) [1/10, 9/10, 3/10] 2 3
      = some (defaultRanker.rank_candidates_from_top_k [(1, 9/10), (2, 3/10)] 3) :=
  entry_points_agree defaultRanker (fun x => x) [1/10, 9/10, 3/10] 2 3
    [(1, 9/10), (2, 3/10)] (by decide)

/-- C8: a selected symbol whose id is absent from the store yields exactly
one suggestion — the placeholder, whose command embeds the numeric id,
whose priority is the neutral 0.5 and whose score follows the standard
formula — and (with at least one candidate kept per symbol) no selected
symbol is ever dropped from the output. -/
theorem placeholder_unmapped :
    (∀ (r : CandidateRanker) (pairs : List (Int × ℚ)) (kc : Nat) (id : Int) (conf : ℚ),
        r.mapping_db.get_mapping id = none →
        (id, conf) ∈ pairs →
        (pairs.map Prod.fst).count id = 1 →
        ((r.rank_candidates_from_top_k pairs kc).filter
            (fun c => c.symbol_class_id = id) = [placeholderRow r id conf])
        ∧ (placeholderRow r id conf).latex_command = "\\symbol_" ++ toString id
        ∧ (placeholderRow r id conf).math_priority = 1/2
        ∧ (placeholderRow r id conf).combined_score
            = conf * r.vision_weight + (1/2) * r.math_weight)
    ∧ (∀ (r : CandidateRanker) (pairs : List (Int × ℚ)) (kc : Nat), 1 ≤ kc →
        ∀ p ∈ pairs, ∃ c ∈ r.rank_candidates_from_top_k pairs kc,
          c.symbol_class_id = p.1) := by
  constructor
  · intro r pairs kc id conf hno hmem hcount
    refine ⟨?_, rfl, rfl, rfl⟩
    have hperm : ((r.rank_candidates_from_top_k pairs kc).filter
        (fun c => c.symbol_class_id = id)).Perm
          ((pairs.flatMap (rankRowsTopK r kc)).filter
            (fun c => c.symbol_class_id = id)) := by
      unfold CandidateRanker.rank_candidates_from_top_k
      exact (List.perm_insertionSort scoreDesc _).filter _
    rw [List.filter_flatMap] at hperm
    rw [flatMap_filter_unique hno pairs hmem hcount] at hperm
    exact List.perm_singleton.mp hperm
  · intro r pairs kc hkc p hp
    obtain ⟨x, hx⟩ : ∃ x, x ∈ rankRowsTopK r kc p := by
      cases hrl : rankRowsTopK r kc p with
      | nil => exact absurd hrl (rankRowsTopK_ne_nil hkc)
      | cons x xs => exact ⟨x, List.mem_cons_self x xs⟩
    exact ⟨x, mem_rank_from_top_k.mpr ⟨p, hp, hx⟩, (rankRowsTopK_mem hx).1⟩

theorem placeholder_unmapped_witness :
    ((defaultRanker.rank_candidates_from_top_k [(999, 3/10), (1, 17/20)] 3).filter
        (fun c => c.symbol_class_id = 999) = [placeholderRow defaultRanker 999 (3/10)])
    ∧ (placeholderRow defaultRanker 999 (3/10)).combined_score = 19/50
    ∧ ∃ c ∈ defaultRanker.rank_candidates_from_top_k [(999, 3/10), (1, 17/20)] 3,
        c.symbol_class_id = 1 :=
  ⟨(placeholder_unmapped.1 defaultRanker [(999, 3/10), (1, 17/20)] 3 999 (3/10)
      (by decide) (by decide) (by decide)).1,
   by decide,
   placeholder_unmapped.2 defaultRanker [(999, 3/10), (1, 17/20)] 3 (by decide)
     (1, 17/20) (by decide)⟩

end MathRec
